import Mathlib

/-!
Verification of the papereader backend against its specification.

The definitions below are shallow embeddings of the Python source files:
  backend/services/gemini_service.py   (cost calculator, cache manager, chat)
  backend/services/arxiv_service.py    (resolver source A)
  backend/services/openreview_service.py (resolver source B)
  backend/services/pdf_service.py      (fetcher)
  backend/routers/papers.py            (retry operation)
  backend/processor.py                 (paper processing pipeline)

Remote services, the filesystem and the database session are modelled as
explicit environment/state values threaded through the functions; money is
modelled with exact rationals.
-/

namespace PaperReader

/-! ## Cost calculator (gemini_service.Gemini_interface._calculate_cost) -/

/-- One entry of usage_metadata.prompt_tokens_details. -/
structure TokenDetail where
  modality : String
  token_count : Nat
deriving DecidableEq, Repr

/-- The usage metadata attached to a model response.  prompt_tokens_details
is optional, mirroring the hasattr check in the source; candidates_token_count
may be absent, mirroring the None check in the source. -/
structure UsageMetadata where
  prompt_tokens_details : Option (List TokenDetail)
  prompt_token_count : Nat
  candidates_token_count : Option Nat
deriving DecidableEq, Repr

/-- Tests whether the second character list is a prefix of the first. -/
def startsWithChars : List Char → List Char → Bool
  | [], _ => true
  | _ :: _, [] => false
  | a :: as, b :: bs => a == b && startsWithChars as bs

/-- Tests whether pat occurs as a contiguous run inside hay. -/
def charsContain (hay pat : List Char) : Bool :=
  match hay with
  | [] => pat.isEmpty
  | _ :: t => startsWithChars pat hay || charsContain t pat

/-- Python substring containment test (the in operator on strings). -/
def strContains (s pat : String) : Bool :=
  charsContain s.toList pat.toList

/-- Accumulates (cached, non_cached) token counts from prompt_tokens_details:
IMAGE modality counts as cached content, TEXT as the non-cached query, exactly
as in the parsing loop of _calculate_cost.  When the details are missing the
fallback treats prompt_token_count as all non-cached TEXT. -/
def promptSplit (u : UsageMetadata) : Nat × Nat :=
  match u.prompt_tokens_details with
  | some details =>
      details.foldl
        (fun acc d =>
          if d.modality = "IMAGE" then (acc.1 + d.token_count, acc.2)
          else if d.modality = "TEXT" then (acc.1, acc.2 + d.token_count)
          else acc)
        (0, 0)
  | none => (0, u.prompt_token_count)

/-- Embedding of Gemini_interface._calculate_cost.  Token counts are split
into cached (IMAGE) and non-cached (TEXT); pricing is per model family with a
200000-token threshold, and is_cache_creation bills cached tokens at the
standard input rate instead of the cache-hit rate. -/
def calculate_cost (usage_metadata : Option UsageMetadata) (model_name : String)
    (is_cache_creation : Bool) : ℚ :=
  match usage_metadata with
  | none => 0
  | some u =>
    let cached_count : Nat := (promptSplit u).1
    let non_cached_prompt_count : Nat := (promptSplit u).2
    let output_count : Option Nat := u.candidates_token_count
    if strContains model_name "gemini-3-pro-preview" then
      (if non_cached_prompt_count ≤ 200000 then
          (non_cached_prompt_count : ℚ) / 1000000 * 2.00
        else (non_cached_prompt_count : ℚ) / 1000000 * 4.00)
      + (if cached_count > 0 then
          (if is_cache_creation then
            (if cached_count ≤ 200000 then (cached_count : ℚ) / 1000000 * 2.00
              else (cached_count : ℚ) / 1000000 * 4.00)
          else
            (if cached_count ≤ 200000 then (cached_count : ℚ) / 1000000 * 0.20
              else (cached_count : ℚ) / 1000000 * 0.40))
        else 0)
      + (match output_count with
        | some oc =>
            if oc ≤ 200000 then (oc : ℚ) / 1000000 * 12.00
            else (oc : ℚ) / 1000000 * 18.00
        | none => 0)
    else if strContains model_name "gemini-3-flash-preview" then
      (if cached_count > 0 then
          (if is_cache_creation then (cached_count : ℚ) / 1000000 * 0.50
            else (cached_count : ℚ) / 1000000 * 0.05)
        else 0)
      + (non_cached_prompt_count : ℚ) / 1000000 * 0.50
      + (match output_count with
        | some oc => (oc : ℚ) / 1000000 * 3.00
        | none => 0)
    else 0

/-- Observer used to state pricing claims: the cost charged for a response
consisting solely of output tokens (no prompt detail entries). -/
def outputCost (model_name : String) (oc : Nat) : ℚ :=
  calculate_cost (some { prompt_tokens_details := some []
                         prompt_token_count := 0
                         candidates_token_count := some oc }) model_name false

/-- The spec property that a model has two distinct output unit prices with a
step-up at the 200000-token volume threshold. -/
def HasTieredOutputPricing (model_name : String) : Prop :=
  ∃ p q : ℚ, p < q ∧
    (∀ n : Nat, n ≤ 200000 → outputCost model_name n = n * p) ∧
    (∀ n : Nat, n > 200000 → outputCost model_name n = n * q)

/-! ## Conversation data model (gemini_service history dictionaries) -/

/-- One API-format message: a role plus a list of text parts, embedding the
dictionaries of shape role/parts with parts a list of text entries. -/
structure GMsg where
  role : String
  parts : List String
deriving DecidableEq, Repr

/-- Billing metadata attached to a completed turn. -/
structure TurnMeta where
  cost : ℚ
  time_cost : ℚ
deriving DecidableEq, Repr

/-- One turn of the nested interface history: optional user entry, optional
model entry, optional metadata, mirroring a turn dictionary whose keys may
each be absent. -/
structure GTurn where
  user : Option GMsg := none
  model : Option GMsg := none
  meta : Option TurnMeta := none
deriving DecidableEq, Repr

/-- The cache entry stored inside a history dictionary: cache_name is the
ephemeral remote name, display_name the stable file-derived name.  Both keys
may be absent. -/
structure HistCache where
  cache_name : Option String
  display_name : Option String
deriving DecidableEq, Repr

/-- The nested interface history: optional attached cache plus ordered turns. -/
structure ChatHistory where
  cache : Option HistCache
  turns : List GTurn
deriving DecidableEq, Repr

/-- One message of the flat frontend/persisted history list. -/
structure FrontMsg where
  role : String
  content : String
deriving DecidableEq, Repr

/-! ## Interactive history conversion
(gemini_service._convert_frontend_history_to_interface) -/

/-- The conversion loop over the flat message list.  The first argument is
the current_turn dictionary being assembled; a second user message resets it,
an assistant/model message completes and emits it when a user part is
pending and is skipped otherwise, and a trailing pending user part is emitted
as an unterminated turn at the end. -/
def convertLoop : GTurn → List FrontMsg → List GTurn
  | current_turn, [] =>
    if current_turn.user.isSome then [current_turn] else []
  | current_turn, msg :: rest =>
    if msg.role = "user" then
      let ct := if current_turn.user.isSome then {} else current_turn
      convertLoop { ct with user := some { role := "user", parts := [msg.content] } } rest
    else if msg.role = "assistant" ∨ msg.role = "model" then
      if current_turn.user.isSome then
        { current_turn with model := some { role := "model", parts := [msg.content] } }
          :: convertLoop {} rest
      else
        convertLoop current_turn rest
    else
      convertLoop current_turn rest

/-- Embedding of _convert_frontend_history_to_interface: converts the flat
frontend list into the nested interface history with no cache attached. -/
def _convert_frontend_history_to_interface (history : List FrontMsg) : ChatHistory :=
  { cache := none, turns := convertLoop {} history }

/-! ## String and path helpers for the embedding -/

/-- Splits a character list on a separator, like str.split of Python. -/
def splitOnChar (sep : Char) : List Char → List (List Char)
  | [] => [[]]
  | c :: t =>
    let r := splitOnChar sep t
    if c == sep then [] :: r
    else
      match r with
      | [] => [[c]]
      | h :: t2 => (c :: h) :: t2

/-- ASCII lower-casing of one character. -/
def charLower (c : Char) : Char :=
  if 'A' ≤ c ∧ c ≤ 'Z' then Char.ofNat (c.toNat + 32) else c

/-- ASCII lower-casing of a string, as str.lower of Python on ASCII input. -/
def lowerStr (s : String) : String :=
  String.mk (s.toList.map charLower)

/-- Python truthiness of an optional string (absent and empty are falsy). -/
def strTruthy : Option String → Bool
  | some s => s != ""
  | none => false

/-- The final component of a slash-separated path, as Path(p).name. -/
def pathName (p : String) : String :=
  String.mk ((splitOnChar '/' p.toList).getLastD [])

/-- The extension of a path including the dot, as Path(p).suffix; a name
without a dot, or consisting of a single leading dot, has no extension. -/
def pathSuffix (p : String) : String :=
  let parts := splitOnChar '.' (pathName p).toList
  if parts.length ≤ 1 then ""
  else if parts.headD [] = [] ∧ parts.length = 2 then ""
  else String.mk ('.' :: parts.getLastD [])

/-! ## Cache manager and chat turn (Gemini_interface.chat) -/

/-- A live remote cache as returned by the cache listing call, carrying its
ephemeral remote name and its stable file-derived display name. -/
structure CacheInfo where
  name : String
  display_name : String
deriving DecidableEq, Repr

/-- Environment of one chat call: the list of currently live remote caches,
the filesystem existence predicate, the remote name the server would assign
to a newly created cache, and the model response with its usage breakdown
and wall-clock duration. -/
structure ChatEnv where
  activeCaches : List CacheInfo
  fileExists : String → Bool
  freshCacheName : String
  responseText : String
  usage : Option UsageMetadata
  timeCost : ℚ

/-- Embedding of Gemini_interface._create_pdf_cache: fails when the file is
missing or is not a PDF, and otherwise creates a remote cache whose display
name is the file name of the source path. -/
def _create_pdf_cache (env : ChatEnv) (file_path : String) : Except String CacheInfo :=
  if ¬ env.fileExists file_path then
    Except.error ("File not found: " ++ file_path)
  else if lowerStr (pathSuffix file_path) ≠ ".pdf" then
    Except.error "Only PDF files are supported for caching."
  else
    Except.ok { name := env.freshCacheName, display_name := pathName file_path }

/-- The tail of Gemini_interface.chat after the cache strategy has been
settled: computes the cost from the usage breakdown and the creation flag,
appends the new turn, and stores the selected cache in the history. -/
def finishTurn (env : ChatEnv) (model_name text : String) (history : ChatHistory)
    (cache_item : Option HistCache) (cache_created_this_turn : Bool) :
    Except String (String × ChatHistory × ℚ × ℚ) :=
  let cost := calculate_cost env.usage model_name cache_created_this_turn
  let new_turn : GTurn :=
    { user := some { role := "user", parts := [text] }
      model := some { role := "model", parts := [env.responseText] }
      meta := some { cost := cost, time_cost := env.timeCost } }
  Except.ok (env.responseText,
    { cache := cache_item, turns := history.turns ++ [new_turn] },
    cost, env.timeCost)

/-- Embedding of Gemini_interface.chat.  A new PDF is attached only when no
cache with a display name is already attached; an already attached cache is
checked against the live cache list, reloaded from the supplied path when it
is absent from that list, and the turn fails when no usable path is
available.  Errors are the exceptions that propagate to the caller. -/
def chat (env : ChatEnv) (model_name : String) (pdf : Option String) (text : String)
    (history0 : Option ChatHistory) : Except String (String × ChatHistory × ℚ × ℚ) :=
  let history : ChatHistory := history0.getD { cache := none, turns := [] }
  let active_cache_name_list := env.activeCaches.map CacheInfo.name
  let cache_item := history.cache
  if strTruthy pdf && !(cache_item.elim false (fun ci => strTruthy ci.display_name)) then
    let p := pdf.getD ""
    let pdf_name := pathName p
    match env.activeCaches.find? (fun c => c.display_name == pdf_name) with
    | some found_cache =>
        finishTurn env model_name text history
          (some { cache_name := some found_cache.name,
                  display_name := some found_cache.display_name }) false
    | none =>
        match _create_pdf_cache env p with
        | Except.error e => Except.error e
        | Except.ok new_cache =>
            finishTurn env model_name text history
              (some { cache_name := some new_cache.name,
                      display_name := some new_cache.display_name }) true
  else
    match cache_item with
    | none => finishTurn env model_name text history cache_item false
    | some ci =>
      if strTruthy ci.cache_name
          && !(active_cache_name_list.contains (ci.cache_name.getD "")) then
        if strTruthy pdf && env.fileExists (pdf.getD "") then
          match _create_pdf_cache env (pdf.getD "") with
          | Except.ok new_cache =>
              finishTurn env model_name text history
                (some { cache_name := some new_cache.name,
                        display_name := some new_cache.display_name }) true
          | Except.error _ =>
              finishTurn env model_name text history none false
        else
          Except.error ("Cache expired and source file '"
            ++ ci.display_name.getD "None" ++ "' not found. Cannot reload context.")
      else
        finishTurn env model_name text history cache_item false

/-- Usage metadata holding only cached (IMAGE) prompt tokens, used to state
the billing claims. -/
def cacheOnlyUsage (c : Nat) : UsageMetadata :=
  { prompt_tokens_details := some [{ modality := "IMAGE", token_count := c }]
    prompt_token_count := 0
    candidates_token_count := none }

/-- Usage metadata holding only non-cached (TEXT) prompt tokens, used to
state the billing claims. -/
def textOnlyUsage (c : Nat) : UsageMetadata :=
  { prompt_tokens_details := some [{ modality := "TEXT", token_count := c }]
    prompt_token_count := 0
    candidates_token_count := none }

/-- A concrete chat environment with an empty live cache list, used to
witness the cache reload and cache loss behavior on explicit inputs. -/
def wEnv : ChatEnv :=
  { activeCaches := []
    fileExists := fun p => p == "paper.pdf"
    freshCacheName := "cachedContents/new1"
    responseText := "fine"
    usage := none
    timeCost := 0 }

/-- A concrete conversation history holding an attached cache handle whose
remote name no longer appears in the live cache list of wEnv. -/
def wHist : ChatHistory :=
  { cache := some { cache_name := some "cachedContents/old0"
                    display_name := some "paper.pdf" }
    turns := [] }

/-! ## Fetcher (pdf_service.download_pdf) -/

/-- A filesystem, mapping a path to the bytes stored there, if any. -/
def Fs : Type := String → Option (List UInt8)

/-- The first four bytes of every well-formed PDF file. -/
def pdfMagic : List UInt8 := [0x25, 0x50, 0x44, 0x46]

/-- The HTTP response obtained for the download URL: whether the status was
non-error, the Content-Type header, and the body bytes. -/
structure HttpResponse where
  ok : Bool
  content_type : String
  body : List UInt8

/-- Environment of one download: the response, or none when the request
itself raises a network error. -/
structure FetchEnv where
  response : Option HttpResponse

/-- Removes the file at a path if it exists (the cleanup in the except
branch of download_pdf). -/
def removeIfExists (fs : Fs) (p : String) : Fs :=
  fun q => if q == p then none else fs q

/-- Writes bytes at a path. -/
def writeFile (fs : Fs) (p : String) (c : List UInt8) : Fs :=
  fun q => if q == p then some c else fs q

/-- The try block of download_pdf: fetch, reject error statuses and HTML
content types, write the body, then re-verify the magic header; any failure
removes whatever file is at the destination and reports false. -/
def downloadAttempt (fs : Fs) (env : FetchEnv) (save_path : String) : Bool × Fs :=
  match env.response with
  | none => (false, removeIfExists fs save_path)
  | some r =>
    if r.ok = false then (false, removeIfExists fs save_path)
    else if strContains (lowerStr r.content_type) "text/html" then
      (false, removeIfExists fs save_path)
    else
      let fs1 := writeFile fs save_path r.body
      if r.body.take 4 ≠ pdfMagic then (false, removeIfExists fs1 save_path)
      else (true, fs1)

/-- Embedding of pdf_service.download_pdf: an existing destination file is
reused when its first four bytes are the PDF magic signature, and otherwise
the file is (re)downloaded through downloadAttempt. -/
def download_pdf (fs : Fs) (env : FetchEnv) (url save_path : String) : Bool × Fs :=
  match fs save_path with
  | some content =>
    if content.take 4 = pdfMagic then (true, fs)
    else downloadAttempt fs env save_path
  | none => downloadAttempt fs env save_path

/-- A concrete filesystem with no files, used as witness input. -/
def emptyFs : Fs := fun _ => none

/-- A concrete fetch environment whose response is an HTML error page, used
as witness input. -/
def wFetchEnv : FetchEnv :=
  { response := some { ok := true, content_type := "text/html; charset=utf-8"
                       body := [0x3c, 0x68, 0x74, 0x6d, 0x6c, 0x3e] } }

/-! ## Resolver (arxiv_service.search_arxiv, openreview_service.search_openreview) -/

/-- Tests whether a character is an ASCII letter or digit, as the regex
character class of letters and digits used by the arxiv title match. -/
def isAsciiAlphanum (c : Char) : Bool :=
  ('a' ≤ c && c ≤ 'z') || ('A' ≤ c && c ≤ 'Z') || ('0' ≤ c && c ≤ '9')

/-- Embedding of the simplify helper of search_arxiv: lower-case the string
and strip every non-alphanumeric character. -/
def simplify (s : String) : String :=
  String.mk ((lowerStr s).toList.filter isAsciiAlphanum)

/-- Strips pat from the front of a list, returning the rest on a match. -/
def stripStart : List Char → List Char → Option (List Char)
  | [], l => some l
  | _ :: _, [] => none
  | a :: as, b :: bs => if a == b then stripStart as bs else none

/-- Replaces every occurrence of pat by rep; the fuel argument only bounds
the recursion and any value at least the list length is enough, since every
step consumes at least one character. -/
def replaceFuel (pat rep : List Char) : Nat → List Char → List Char
  | _, [] => []
  | 0, l => l
  | fuel + 1, c :: t =>
    match pat, stripStart pat (c :: t) with
    | _ :: _, some rest => rep ++ replaceFuel pat rep fuel rest
    | _, _ => c :: replaceFuel pat rep fuel t

/-- String replacement, as str.replace of Python on the non-empty patterns
the source uses (an empty pattern leaves the string unchanged here). -/
def strReplace (s pat rep : String) : String :=
  String.mk (replaceFuel pat.toList rep.toList s.toList.length s.toList)

/-- Tests whether s ends with suf, as str.endswith of Python. -/
def strEndsWith (s suf : String) : Bool :=
  startsWithChars suf.toList.reverse s.toList.reverse

/-- Drops the final four characters, as the slice dropping a .pdf tail. -/
def dropLast4 (s : String) : String :=
  String.mk (s.toList.take (s.toList.length - 4))

/-- Strips surrounding whitespace, as str.strip of Python. -/
def strStrip (s : String) : String :=
  String.mk
    (((s.toList.dropWhile Char.isWhitespace).reverse.dropWhile Char.isWhitespace).reverse)

/-- One raw arxiv search result. -/
structure ArxivResult where
  title : String
  authorNames : List String
  summary : String
  pdf_url : String
deriving DecidableEq, Repr

/-- The first search hit returned by the arxiv client for the title query,
as seen by search_arxiv (the result list is requested with max_results 1).
A none models an empty result list or exhausted retries. -/
structure ArxivEnv where
  queryResult : Option ArxivResult

/-- The resolver output record (the published timestamp of the source is
outside the embedding). -/
structure SearchResult where
  title : String
  authors : List String
  abstract : String
  pdf_url : String
  source : String
  source_url : String
deriving DecidableEq, Repr

/-- Embedding of arxiv_service.search_arxiv: the hit is accepted only when
its simplified title equals the simplified query title, and the source URL
is derived from the PDF URL. -/
def search_arxiv (env : ArxivEnv) (title : String) : Option SearchResult :=
  match env.queryResult with
  | none => none
  | some result =>
    if simplify result.title = simplify title then
      let pdf_url := result.pdf_url
      let source_url0 := strReplace pdf_url "/pdf/" "/abs/"
      let source_url :=
        if strEndsWith source_url0 ".pdf" then dropLast4 source_url0 else source_url0
      some { title := result.title
             authors := result.authorNames
             abstract := strReplace result.summary "\n" " "
             pdf_url := pdf_url
             source := "arxiv"
             source_url := source_url }
    else none

/-- One OpenReview note as returned by a get_notes query (for the v1 API the
abstract field is read directly, for v2 through its value wrapper; both are
modelled as the abstract string). -/
structure ORNote where
  id : String
  title : String
  abstract : String
deriving DecidableEq, Repr

/-- The OpenReview clients: each maps a venue id and a title filter to the
notes the server returns for that query. -/
structure OREnv where
  notesV2 : String → String → List ORNote
  notesV1 : String → String → List ORNote
  currentYear : Nat

/-- Embedding of get_openreview_venue_ids; the year is a number here because
the only caller formats integers into the year string. -/
def get_openreview_venue_ids (conference : String) (y : Nat) : List String :=
  let conf := lowerStr conference
  if conf = "iclr" then ["ICLR.cc/" ++ toString y ++ "/Conference"]
  else if conf = "nips" ∨ conf = "neurips" then
    ["NeurIPS.cc/" ++ toString y ++ "/Conference"]
  else if conf = "icml" then ["ICML.cc/" ++ toString y ++ "/Conference"]
  else if conf = "uai" then ["auai.org/UAI/" ++ toString y ++ "/Conference"]
  else []

/-- The years scanned by search_openreview: current_year down to 2023. -/
def targetYears (current_year : Nat) : List Nat :=
  (List.range (current_year - 2022)).map (fun i => current_year - i)

/-- The first note returned by querying the venues in order, taking the head
of the first non-empty result list (each query is made with limit 1). -/
def firstNote (f : String → List ORNote) : List String → Option ORNote
  | [] => none
  | v :: rest =>
    match f v with
    | [] => firstNote f rest
    | n :: _ => some n

/-- The note search_openreview accepts for a cleaned title: the first note
of the v2 client over the venue list, and otherwise the first note of the
v1 client.  No comparison of the note title against the query is made. -/
def acceptedORNote (env : OREnv) (clean_title : String) : Option ORNote :=
  let venue_ids :=
    (targetYears env.currentYear).flatMap fun y =>
      (["iclr", "neurips", "icml"].flatMap fun conf => get_openreview_venue_ids conf y)
  match firstNote (fun vid => env.notesV2 vid clean_title) venue_ids with
  | some n => some n
  | none => firstNote (fun vid => env.notesV1 vid clean_title) venue_ids

/-- Embedding of openreview_service.search_openreview: the returned record
echoes the query title and builds the URLs from the accepted note's id. -/
def search_openreview (env : OREnv) (title : String) : Option SearchResult :=
  let clean_title := strStrip (strReplace title "\n" " ")
  match acceptedORNote env clean_title with
  | none => none
  | some note =>
    let pdf_url := "https://openreview.net/pdf?id=" ++ note.id
    some { title := title
           authors := []
           abstract := note.abstract
           pdf_url := pdf_url
           source := "openreview"
           source_url := strReplace pdf_url "/pdf?" "/forum?" }

/-- The property claimed of every resolver source: a hit is accepted only if
its normalized title equals the normalized query title, so when every note
any query could return has a different normalized title the resolver must
report not-found. -/
def ORAcceptsOnlyNormalizedMatches : Prop :=
  ∀ (env : OREnv) (title : String),
    (∀ vid t n, n ∈ env.notesV2 vid t → simplify n.title ≠ simplify title) →
    (∀ vid t n, n ∈ env.notesV1 vid t → simplify n.title ≠ simplify title) →
    search_openreview env title = none

/-- An OpenReview environment whose server answers every query with a note
whose title is unrelated to the query. -/
def badOREnv : OREnv :=
  { notesV2 := fun _ _ =>
      [{ id := "xYz12", title := "A Completely Different Paper", abstract := "a" }]
    notesV1 := fun _ _ => []
    currentYear := 2025 }

/-- An arxiv environment whose hit differs from the query title only in
case and punctuation, used as witness input. -/
def goodArxivEnv : ArxivEnv :=
  { queryResult := some { title := "Deep Learning: A Survey"
                          authorNames := ["A. Author"]
                          summary := "sum"
                          pdf_url := "https://arxiv.org/pdf/1234.5678.pdf" } }

/-! ## Paper records and database state (models.py, database.py) -/

/-- The paper status lifecycle values. -/
inductive PStatus
  | queued
  | processing
  | done
  | failed
  | skipped
deriving DecidableEq, Repr

/-- A paper row.  The template_id and model_name override columns are the
ones check_and_migrate_database adds to the papers table and processor.py
reads. -/
structure Paper where
  id : String
  task_id : String
  title : String
  pdf_path : Option String
  source : Option String
  source_url : Option String
  status : PStatus
  failure_reason : Option String
  template_id : Option String
  model_name : Option String
deriving DecidableEq, Repr

/-- A task row (the fields the pipeline reads). -/
structure Task where
  id : String
  template_id : Option String
  model_name : Option String
  status : String
deriving DecidableEq, Repr

/-- A template row. -/
structure Template where
  id : String
  content : String
deriving DecidableEq, Repr

/-- A chat message row. -/
structure ChatMessage where
  paper_id : String
  role : String
  content : String
  cost : ℚ := 0
  time_cost : ℚ := 0
deriving DecidableEq, Repr

/-- An interpretation row. -/
structure Interpretation where
  paper_id : String
  content : String
  template_used : String
deriving DecidableEq, Repr

/-- A note row. -/
structure Note where
  paper_id : String
  content : String
deriving DecidableEq, Repr

/-- The database state the pipeline reads and writes. -/
structure Db where
  papers : List Paper
  tasks : List Task
  templates : List Template
  chat_messages : List ChatMessage
  interpretations : List Interpretation
  notes : List Note
deriving DecidableEq, Repr

/-- The query for a paper row by id (query(...).filter(id == pid).first()). -/
def findPaper (db : Db) (pid : String) : Option Paper :=
  db.papers.find? (fun p => p.id == pid)

/-- Applies a field update to the paper row with the given id. -/
def setPaper (db : Db) (pid : String) (f : Paper → Paper) : Db :=
  { db with papers := db.papers.map (fun p => if p.id == pid then f p else p) }

/-! ## Retry operation (papers.py retry_paper) -/

/-- Embedding of the retry endpoint: a missing paper is a 404 leaving the
state unchanged; otherwise the paper's status is set to queued and its
failure reason cleared, with no check of the current status. -/
def retry_paper (db : Db) (pid : String) : Db :=
  match findPaper db pid with
  | none => db
  | some _ =>
    setPaper db pid fun p =>
      { p with status := PStatus.queued, failure_reason := none }

/-! ## Processing pipeline (processor.py process_paper) -/

/-- The deletions of all chat messages, interpretations and notes of a paper
performed at the start of a processing run. -/
def clearPaperData (db : Db) (pid : String) : Db :=
  { db with
    chat_messages := db.chat_messages.filter (fun m => m.paper_id != pid)
    interpretations := db.interpretations.filter (fun i => i.paper_id != pid)
    notes := db.notes.filter (fun n => n.paper_id != pid) }

/-- Embedding of log_error_to_chat: appends an assistant-role chat message
describing the failure. -/
def log_error_to_chat (db : Db) (pid error_msg : String) : Db :=
  { db with chat_messages := db.chat_messages
      ++ [{ paper_id := pid, role := "assistant"
            content := "**Error Processing Paper:** " ++ error_msg }] }

/-- The failure path of one pipeline stage: mark the paper failed with the
reason and log the reason to the chat history. -/
def failPaper (db : Db) (pid reason : String) : Db :=
  log_error_to_chat
    (setPaper db pid fun p =>
      { p with status := PStatus.failed, failure_reason := some reason })
    pid reason

/-- Outcomes of the external calls made during one processing run: the two
resolver sources, the PDF download, and the interpretation run (an error
models any exception raised inside the interpretation block). -/
structure ProcEnv where
  arxiv : Option SearchResult
  openreview : Option SearchResult
  download_ok : Bool
  interpret : Except String (String × List GTurn)

/-- Persists one interpretation turn as chat message rows: a user row for a
non-empty prompt text and an assistant row carrying the turn's cost
metadata for a non-empty response text. -/
def addTurnMessages (d : Db) (pid : String) (t : GTurn) : Db :=
  let user_text :=
    match t.user with
    | some m => m.parts.headD ""
    | none => ""
  let d1 :=
    if user_text ≠ "" then
      { d with chat_messages := d.chat_messages
          ++ [{ paper_id := pid, role := "user", content := user_text }] }
    else d
  let model_text :=
    match t.model with
    | some m => m.parts.headD ""
    | none => ""
  let meta := t.meta.getD { cost := 0, time_cost := 0 }
  if model_text ≠ "" then
    { d1 with chat_messages := d1.chat_messages
        ++ [{ paper_id := pid, role := "assistant", content := model_text
              cost := meta.cost, time_cost := meta.time_cost }] }
  else d1

/-- The stages of process_paper after the status has been set to processing
and the old records cleared: resolve (arxiv then openreview), download,
look up task and template, interpret, persist.  The second component lists
the database snapshots at each commit point, in order. -/
def processRest (db2 : Db) (paper : Paper) (pid : String) (env : ProcEnv) :
    Db × List Db :=
  let search_result :=
    match env.arxiv with
    | some r => some r
    | none => env.openreview
  match search_result with
  | none =>
    let dbf := failPaper db2 pid
      "Paper not found in Arxiv or OpenReview (ICLR/NeurIPS/ICML 2023-2026)"
    (dbf, [dbf])
  | some sr =>
    let db3 := setPaper db2 pid fun p =>
      { p with source := some sr.source, source_url := some sr.source_url }
    if sr.pdf_url == "" then
      let dbf := failPaper db3 pid "PDF URL not found"
      (dbf, [db3, dbf])
    else if env.download_ok = false then
      let dbf := failPaper db3 pid "Failed to download PDF"
      (dbf, [db3, dbf])
    else
      let rel_path := "pdfs/" ++ paper.task_id ++ "/" ++ pid ++ ".pdf"
      let db4 := setPaper db3 pid fun p => { p with pdf_path := some rel_path }
      match db4.tasks.find? (fun t => t.id == paper.task_id) with
      | none =>
        let dbf := failPaper db4 pid "System error: task record not found"
        (dbf, [db3, db4, dbf])
      | some task =>
        let template_id :=
          if strTruthy paper.template_id then paper.template_id else task.template_id
        match template_id.bind (fun tid => db4.templates.find? (fun t => t.id == tid)) with
        | none =>
          let dbf := failPaper db4 pid "Template not found"
          (dbf, [db3, db4, dbf])
        | some template =>
          match env.interpret with
          | Except.error e =>
            let dbf := failPaper db4 pid e
            (dbf, [db3, db4, dbf])
          | Except.ok (interpretation_text, chat_history) =>
            let db5 := { db4 with interpretations := db4.interpretations
                ++ [{ paper_id := pid
                      content := interpretation_text
                      template_used := template.content }] }
            let db6 := chat_history.foldl (fun d t => addTurnMessages d pid t) db5
            let db7 := setPaper db6 pid fun p => { p with status := PStatus.done }
            (db7, [db3, db4, db7])

/-- Embedding of process_paper: a missing paper or one whose status is not
queued is left untouched with no commits; otherwise the first commit sets
the status to processing, the second clears the paper's old chat messages,
interpretations and notes, and the remaining stages run on the cleared
state. -/
def process_paper (db : Db) (pid : String) (env : ProcEnv) : Db × List Db :=
  match findPaper db pid with
  | none => (db, [])
  | some paper =>
    if paper.status = PStatus.queued then
      let db1 := setPaper db pid fun p => { p with status := PStatus.processing }
      let db2 := clearPaperData db1 pid
      let r := processRest db2 paper pid env
      (r.1, db1 :: db2 :: r.2)
    else (db, [])

/-- A paper stuck in processing, witness input for the retry claims. -/
def procPaperEx : Paper :=
  { id := "p1", task_id := "t1", title := "T", pdf_path := none, source := none
    source_url := none, status := PStatus.processing
    failure_reason := some "boom", template_id := none, model_name := none }

/-- A database holding only the processing paper. -/
def procDbEx : Db :=
  { papers := [procPaperEx], tasks := [], templates := []
    chat_messages := [], interpretations := [], notes := [] }

/-- A queued paper, witness input for the processing claims. -/
def queuedPaperEx : Paper :=
  { id := "p2", task_id := "t1", title := "T2", pdf_path := none, source := none
    source_url := none, status := PStatus.queued
    failure_reason := none, template_id := none, model_name := none }

/-- A database holding only the queued paper. -/
def queuedDbEx : Db :=
  { papers := [queuedPaperEx], tasks := [], templates := []
    chat_messages := [], interpretations := [], notes := [] }

/-- A database holding the queued paper together with stale chat history and
notes from an earlier run. -/
def histDbEx : Db :=
  { papers := [queuedPaperEx], tasks := [], templates := []
    chat_messages := [{ paper_id := "p2", role := "user", content := "old" }]
    interpretations := [{ paper_id := "p2", content := "old interp", template_used := "t" }]
    notes := [{ paper_id := "p2", content := "my notes" }] }

/-- A processing environment in which both resolver sources miss. -/
def wProcEnv : ProcEnv :=
  { arxiv := none, openreview := none, download_ok := false
    interpret := Except.error "e" }

/-- A done paper, witness input for the retry idempotence claim. -/
def donePaperEx : Paper :=
  { id := "p3", task_id := "t1", title := "T3", pdf_path := none, source := none
    source_url := none, status := PStatus.done
    failure_reason := some "late failure", template_id := none, model_name := none }

/-- A database holding only the done paper. -/
def doneDbEx : Db :=
  { papers := [donePaperEx], tasks := [], templates := []
    chat_messages := [], interpretations := [], notes := [] }

/-! ## Theorems -/

theorem flash_not_pro :
    strContains "gemini-3-flash-preview" "gemini-3-pro-preview" = false := by decide

theorem flash_is_flash :
    strContains "gemini-3-flash-preview" "gemini-3-flash-preview" = true := by decide

theorem pro_is_pro :
    strContains "gemini-3-pro-preview" "gemini-3-pro-preview" = true := by decide

/-- Evaluation of the flash output price at an arbitrary output count. -/
theorem outputCost_flash (n : Nat) :
    outputCost "gemini-3-flash-preview" n = n * (3 / 1000000) := by
  norm_num [outputCost, calculate_cost, promptSplit, flash_not_pro, flash_is_flash]
  ring

/-- Evaluation of the pro output price below the volume threshold. -/
theorem outputCost_pro_low (n : Nat) (h : n ≤ 200000) :
    outputCost "gemini-3-pro-preview" n = n * (12 / 1000000) := by
  norm_num [outputCost, calculate_cost, promptSplit, pro_is_pro, h]
  ring

/-- Evaluation of the pro output price above the volume threshold. -/
theorem outputCost_pro_high (n : Nat) (h : 200000 < n) :
    outputCost "gemini-3-pro-preview" n = n * (18 / 1000000) := by
  have h' : ¬ n ≤ 200000 := Nat.not_le.mpr h
  norm_num [outputCost, calculate_cost, promptSplit, pro_is_pro, h']
  ring

/-- C3 counterexample: the flash model does not have tiered output pricing;
its output unit price is the same flat 3.00 per million tokens on both sides
of the 200000-token threshold, so no pair of distinct unit prices with a
step-up exists for it. -/
theorem C3_counterexample :
    ¬ HasTieredOutputPricing "gemini-3-flash-preview" := by
  rintro ⟨p, q, hpq, hlo, hhi⟩
  have e1 := hlo 200000 le_rfl
  have e2 := hhi 1000000 (by norm_num)
  rw [outputCost_flash] at e1
  rw [outputCost_flash] at e2
  push_cast at e1 e2
  have hp : p = 3 / 1000000 := by linarith
  have hq : q = 3 / 1000000 := by linarith
  rw [hp, hq] at hpq
  exact lt_irrefl _ hpq

/-- C3 amended: output tokens are billed at the model's output rate, but the
volume step-up above 200000 output tokens exists only for the pro model
(12.00 per million rising to 18.00 per million); the flash model bills
output at a flat 3.00 per million with no threshold step-up. -/
theorem C3_output_pricing :
    HasTieredOutputPricing "gemini-3-pro-preview" ∧
    (∀ n : Nat, outputCost "gemini-3-flash-preview" n = n * (3 / 1000000)) := by
  constructor
  · refine ⟨12 / 1000000, 18 / 1000000, by norm_num, ?_, ?_⟩
    · exact fun n h => outputCost_pro_low n h
    · exact fun n h => outputCost_pro_high n h
  · exact outputCost_flash

/-- C7: the interactive-chat conversion pairs each user message with the
immediately following assistant or model message; an assistant or model
message with no unpaired preceding user message is dropped; an unterminated
trailing user message is kept as a pending turn with no model part; and a
second user message arriving before the previous user message was paired
discards the earlier unpaired user message. -/
theorem C7_frontend_history_conversion :
    (∀ (u a : String) (rest : List FrontMsg),
      (_convert_frontend_history_to_interface
          ({ role := "user", content := u } :: { role := "assistant", content := a } :: rest)).turns
        = { user := some { role := "user", parts := [u] },
            model := some { role := "model", parts := [a] }, meta := none }
            :: (_convert_frontend_history_to_interface rest).turns) ∧
    (∀ (u a : String) (rest : List FrontMsg),
      (_convert_frontend_history_to_interface
          ({ role := "user", content := u } :: { role := "model", content := a } :: rest)).turns
        = { user := some { role := "user", parts := [u] },
            model := some { role := "model", parts := [a] }, meta := none }
            :: (_convert_frontend_history_to_interface rest).turns) ∧
    (∀ (a : String) (rest : List FrontMsg),
      (_convert_frontend_history_to_interface
          ({ role := "assistant", content := a } :: rest)).turns
        = (_convert_frontend_history_to_interface rest).turns) ∧
    (∀ (a : String) (rest : List FrontMsg),
      (_convert_frontend_history_to_interface
          ({ role := "model", content := a } :: rest)).turns
        = (_convert_frontend_history_to_interface rest).turns) ∧
    (∀ u : String,
      (_convert_frontend_history_to_interface [{ role := "user", content := u }]).turns
        = [{ user := some { role := "user", parts := [u] }, model := none, meta := none }]) ∧
    (∀ (u1 u2 : String) (rest : List FrontMsg),
      (_convert_frontend_history_to_interface
          ({ role := "user", content := u1 } :: { role := "user", content := u2 } :: rest)).turns
        = (_convert_frontend_history_to_interface
            ({ role := "user", content := u2 } :: rest)).turns) := by
  refine ⟨?_, ?_, ?_, ?_, ?_, ?_⟩ <;>
    intros <;>
    simp [_convert_frontend_history_to_interface, convertLoop]

theorem promptSplit_cacheOnly (c : Nat) : promptSplit (cacheOnlyUsage c) = (c, 0) := by
  simp [promptSplit, cacheOnlyUsage]

theorem promptSplit_textOnly (c : Nat) : promptSplit (textOnlyUsage c) = (0, c) := by
  simp [promptSplit, textOnlyUsage]

theorem candidates_cacheOnly (c : Nat) :
    (cacheOnlyUsage c).candidates_token_count = none := rfl

theorem candidates_textOnly (c : Nat) :
    (textOnlyUsage c).candidates_token_count = none := rfl

/-- On a creation turn, cached tokens cost exactly what the same number of
non-cached input tokens would cost at the standard input rate. -/
theorem creation_bills_cached_as_standard (model_name : String) (c : Nat) :
    calculate_cost (some (cacheOnlyUsage c)) model_name true
      = calculate_cost (some (textOnlyUsage c)) model_name false := by
  simp only [calculate_cost, promptSplit_cacheOnly, promptSplit_textOnly,
    candidates_cacheOnly, candidates_textOnly]
  split_ifs <;> norm_num <;> omega

/-- For the pro model, a creation turn bills cached tokens strictly above the
discounted cache-hit rate. -/
theorem creation_exceeds_hit_pro (c : Nat) (h : 0 < c) :
    calculate_cost (some (cacheOnlyUsage c)) "gemini-3-pro-preview" false
      < calculate_cost (some (cacheOnlyUsage c)) "gemini-3-pro-preview" true := by
  have hc : (0 : ℚ) < c := by exact_mod_cast h
  simp only [calculate_cost, promptSplit_cacheOnly, candidates_cacheOnly, pro_is_pro, h]
  split_ifs <;> norm_num <;> first | assumption | linarith

/-- For the flash model, a creation turn bills cached tokens strictly above
the discounted cache-hit rate. -/
theorem creation_exceeds_hit_flash (c : Nat) (h : 0 < c) :
    calculate_cost (some (cacheOnlyUsage c)) "gemini-3-flash-preview" false
      < calculate_cost (some (cacheOnlyUsage c)) "gemini-3-flash-preview" true := by
  have hc : (0 : ℚ) < c := by exact_mod_cast h
  simp only [calculate_cost, promptSplit_cacheOnly, candidates_cacheOnly,
    flash_not_pro, flash_is_flash, h]
  split_ifs <;> norm_num <;> first | assumption | linarith

/-- C1: when the attached cache handle's remote name is absent from the live
cache list and the original document path is supplied and exists (as a PDF),
the turn recreates the cache: it succeeds, the resulting history carries the
newly created remote name rather than the expired one, and the turn's cost
is computed with the creation flag set, which bills cached input tokens at
the standard input rate instead of the discounted cache-hit rate. -/
theorem C1_expired_cache_recreated
    (env : ChatEnv) (model_name text p oldName oldDn : String) (hist : ChatHistory)
    (hcache : hist.cache = some { cache_name := some oldName, display_name := some oldDn })
    (hname : oldName ≠ "") (hdn : oldDn ≠ "")
    (hdead : oldName ∉ env.activeCaches.map CacheInfo.name)
    (hp : p ≠ "") (hex : env.fileExists p = true)
    (hsuffix : lowerStr (pathSuffix p) = ".pdf")
    (hfresh : env.freshCacheName ≠ oldName) :
    (∃ h' : ChatHistory,
      chat env model_name (some p) text (some hist)
        = Except.ok (env.responseText, h',
            calculate_cost env.usage model_name true, env.timeCost)
      ∧ h'.cache.bind HistCache.cache_name = some env.freshCacheName
      ∧ h'.cache.bind HistCache.cache_name ≠ some oldName)
    ∧ (∀ c : Nat,
        calculate_cost (some (cacheOnlyUsage c)) model_name true
          = calculate_cost (some (textOnlyUsage c)) model_name false)
    ∧ (∀ c : Nat, 0 < c →
        calculate_cost (some (cacheOnlyUsage c)) "gemini-3-pro-preview" false
          < calculate_cost (some (cacheOnlyUsage c)) "gemini-3-pro-preview" true)
    ∧ (∀ c : Nat, 0 < c →
        calculate_cost (some (cacheOnlyUsage c)) "gemini-3-flash-preview" false
          < calculate_cost (some (cacheOnlyUsage c)) "gemini-3-flash-preview" true) := by
  refine ⟨?_, creation_bills_cached_as_standard model_name,
    creation_exceeds_hit_pro, creation_exceeds_hit_flash⟩
  have hchat : chat env model_name (some p) text (some hist)
      = finishTurn env model_name text hist
          (some { cache_name := some env.freshCacheName,
                  display_name := some (pathName p) }) true := by
    simp [chat, _create_pdf_cache, hcache, hdead, hex, hp, hdn, hname, hsuffix, strTruthy]
  refine ⟨{ cache := some { cache_name := some env.freshCacheName,
                            display_name := some (pathName p) },
            turns := hist.turns
              ++ [{ user := some { role := "user", parts := [text] }
                    model := some { role := "model", parts := [env.responseText] }
                    meta := some { cost := calculate_cost env.usage model_name true,
                                   time_cost := env.timeCost } }] }, ?_, ?_, ?_⟩
  · rw [hchat]; rfl
  · rfl
  · intro hcontra
    have heq : env.freshCacheName = oldName := by simpa using hcontra
    exact hfresh heq

/-- C2: when the attached cache handle's remote name is absent from the live
cache list and no usable document path is available (none supplied, empty,
or pointing to a missing file), the chat turn fails with an error that
propagates to the caller instead of returning a response. -/
theorem C2_expired_cache_unrecoverable
    (env : ChatEnv) (model_name text oldName oldDn : String) (pdf : Option String)
    (hist : ChatHistory)
    (hcache : hist.cache = some { cache_name := some oldName, display_name := some oldDn })
    (hname : oldName ≠ "") (hdn : oldDn ≠ "")
    (hdead : oldName ∉ env.activeCaches.map CacheInfo.name)
    (hnopath : ∀ q, pdf = some q → q = "" ∨ env.fileExists q = false) :
    ∃ e, chat env model_name pdf text (some hist) = Except.error e := by
  refine ⟨"Cache expired and source file '" ++ oldDn ++ "' not found. Cannot reload context.", ?_⟩
  match hpdf : pdf with
  | none =>
    simp [chat, hcache, hdead, hdn, hname, strTruthy]
  | some q =>
    rcases hnopath q rfl with hq | hq
    · subst hq
      simp [chat, hcache, hdead, hdn, hname, strTruthy]
    · by_cases hq0 : q = ""
      · subst hq0
        simp [chat, hcache, hdead, hdn, hname, strTruthy]
      · simp [chat, hcache, hdead, hdn, hname, hq, hq0, strTruthy]

/-- C1 witness: the reload behavior at a concrete environment and history. -/
theorem C1_witness :
    wEnv.fileExists "paper.pdf" = true ∧
    lowerStr (pathSuffix "paper.pdf") = ".pdf" ∧
    ("cachedContents/old0" ∉ wEnv.activeCaches.map CacheInfo.name) ∧
    (∃ h' : ChatHistory,
      chat wEnv "gemini-3-flash-preview" (some "paper.pdf") "hello" (some wHist)
        = Except.ok (wEnv.responseText, h',
            calculate_cost wEnv.usage "gemini-3-flash-preview" true, wEnv.timeCost)
      ∧ h'.cache.bind HistCache.cache_name = some wEnv.freshCacheName
      ∧ h'.cache.bind HistCache.cache_name ≠ some "cachedContents/old0") :=
  ⟨by decide, by decide, by decide,
    (C1_expired_cache_recreated wEnv "gemini-3-flash-preview" "hello" "paper.pdf"
      "cachedContents/old0" "paper.pdf" wHist rfl (by decide) (by decide) (by decide)
      (by decide) (by decide) (by decide) (by decide)).1⟩

/-- C2 witness: the unrecoverable-loss error at a concrete environment where
no document path is supplied. -/
theorem C2_witness :
    ("cachedContents/old0" ∉ wEnv.activeCaches.map CacheInfo.name) ∧
    (∃ e, chat wEnv "gemini-3-flash-preview" none "hello" (some wHist) = Except.error e) :=
  ⟨by decide,
    C2_expired_cache_unrecoverable wEnv "gemini-3-flash-preview" "hello"
      "cachedContents/old0" "paper.pdf" none wHist rfl (by decide) (by decide)
      (by decide) (fun q hq => by cases hq)⟩

theorem downloadAttempt_nonPdf (fs : Fs) (env : FetchEnv) (save_path : String)
    (h2 : ∀ r, env.response = some r → r.body.take 4 ≠ pdfMagic) :
    (downloadAttempt fs env save_path).1 = false
      ∧ (downloadAttempt fs env save_path).2 save_path = none := by
  unfold downloadAttempt
  cases hr : env.response with
  | none => simp [removeIfExists]
  | some r =>
    have hb := h2 r hr
    simp only [hb]
    split_ifs <;> simp [removeIfExists, writeFile]

/-- C8: when the response body does not start with the PDF magic bytes and
no valid PDF already sits at the destination, download returns false and no
file remains at the destination; an existing destination file is reused,
returning true with the filesystem unchanged and the response ignored, when
and only when its first four bytes are the PDF magic, and otherwise the
download is attempted afresh. -/
theorem C8_download_magic_check :
    (∀ (fs : Fs) (env : FetchEnv) (url save_path : String),
      (∀ c, fs save_path = some c → c.take 4 ≠ pdfMagic) →
      (∀ r, env.response = some r → r.body.take 4 ≠ pdfMagic) →
      (download_pdf fs env url save_path).1 = false
        ∧ (download_pdf fs env url save_path).2 save_path = none) ∧
    (∀ (fs : Fs) (env : FetchEnv) (url save_path : String) (c : List UInt8),
      fs save_path = some c → c.take 4 = pdfMagic →
      download_pdf fs env url save_path = (true, fs)) ∧
    (∀ (fs : Fs) (env : FetchEnv) (url save_path : String) (c : List UInt8),
      fs save_path = some c → c.take 4 ≠ pdfMagic →
      download_pdf fs env url save_path = downloadAttempt fs env save_path) := by
  refine ⟨?_, ?_, ?_⟩
  · intro fs env url save_path h1 h2
    cases hfs : fs save_path with
    | none => simpa [download_pdf, hfs] using downloadAttempt_nonPdf fs env save_path h2
    | some c =>
      have hc := h1 c hfs
      simpa [download_pdf, hfs, hc] using downloadAttempt_nonPdf fs env save_path h2
  · intro fs env url save_path c hfs hc
    simp [download_pdf, hfs, hc]
  · intro fs env url save_path c hfs hc
    simp [download_pdf, hfs, hc]

/-- C8 witness: downloading an HTML error page onto an empty filesystem. -/
theorem C8_witness :
    (∀ c, emptyFs "paper2.pdf" = some c → c.take 4 ≠ pdfMagic) ∧
    (download_pdf emptyFs wFetchEnv "http://example.org/a" "paper2.pdf").1 = false ∧
    (download_pdf emptyFs wFetchEnv "http://example.org/a" "paper2.pdf").2 "paper2.pdf" = none := by
  have h1 : ∀ c, emptyFs "paper2.pdf" = some c → c.take 4 ≠ pdfMagic := by
    intro c h
    simp [emptyFs] at h
  have h2 : ∀ r, wFetchEnv.response = some r → r.body.take 4 ≠ pdfMagic := by
    intro r hr
    have : wFetchEnv.response = some r := hr
    simp only [wFetchEnv] at this
    cases this
    decide
  have hmain := (C8_download_magic_check.1) emptyFs wFetchEnv "http://example.org/a" "paper2.pdf" h1 h2
  exact ⟨h1, hmain.1, hmain.2⟩

/-- C4 counterexample: the OpenReview source accepts a hit without any
normalized-title comparison.  Against a server whose every note has a title
unrelated to the query, the resolver still returns a result instead of
not-found, so the claim that every source in the fallback chain performs the
normalized exact-match check is false. -/
theorem C4_counterexample : ¬ ORAcceptsOnlyNormalizedMatches := by
  intro hall
  have hne2 : ∀ vid t n, n ∈ badOREnv.notesV2 vid t →
      simplify n.title ≠ simplify "Deep Learning A Survey" := by
    intro vid t n hn
    simp only [badOREnv, List.mem_singleton] at hn
    subst hn
    decide
  have hne1 : ∀ vid t n, n ∈ badOREnv.notesV1 vid t →
      simplify n.title ≠ simplify "Deep Learning A Survey" := by
    intro vid t n hn
    simp [badOREnv] at hn
  have hnone := hall badOREnv "Deep Learning A Survey" hne2 hne1
  have hsome : search_openreview badOREnv "Deep Learning A Survey" ≠ none := by decide
  exact hsome hnone

/-- C4 amended: only the arxiv source enforces the normalized exact title
match (strip non-alphanumerics, case-fold); the OpenReview source returns
the first note produced by its venue-id/title queries without any local
normalized-title verification, echoing the query title in its result. -/
theorem C4_resolver_title_check :
    (∀ (env : ArxivEnv) (title : String) (r : SearchResult),
      search_arxiv env title = some r → simplify r.title = simplify title) ∧
    (∀ (env : OREnv) (title : String) (n : ORNote),
      acceptedORNote env (strStrip (strReplace title "\n" " ")) = some n →
      search_openreview env title
        = some { title := title
                 authors := []
                 abstract := n.abstract
                 pdf_url := "https://openreview.net/pdf?id=" ++ n.id
                 source := "openreview"
                 source_url := strReplace ("https://openreview.net/pdf?id=" ++ n.id)
                   "/pdf?" "/forum?" }) := by
  constructor
  · intro env title r h
    cases henv : env.queryResult with
    | none =>
      unfold search_arxiv at h
      rw [henv] at h
      exact absurd h (by simp)
    | some result =>
      unfold search_arxiv at h
      rw [henv] at h
      dsimp only at h
      by_cases hmatch : simplify result.title = simplify title
      · rw [if_pos hmatch] at h
        injection h with h2
        subst h2
        exact hmatch
      · rw [if_neg hmatch] at h
        exact absurd h (by simp)
  · intro env title n h
    unfold search_openreview
    dsimp only
    rw [h]

/-- C4 witness: the arxiv title check accepting a hit differing only in case
and punctuation, at a concrete environment. -/
theorem C4_witness :
    search_arxiv goodArxivEnv "deep learning a survey"
      = some { title := "Deep Learning: A Survey"
               authors := ["A. Author"]
               abstract := "sum"
               pdf_url := "https://arxiv.org/pdf/1234.5678.pdf"
               source := "arxiv"
               source_url := "https://arxiv.org/abs/1234.5678" } ∧
    simplify "Deep Learning: A Survey" = simplify "deep learning a survey" :=
  ⟨by decide,
    C4_resolver_title_check.1 goodArxivEnv "deep learning a survey"
      { title := "Deep Learning: A Survey"
        authors := ["A. Author"]
        abstract := "sum"
        pdf_url := "https://arxiv.org/pdf/1234.5678.pdf"
        source := "arxiv"
        source_url := "https://arxiv.org/abs/1234.5678" } (by decide)⟩

theorem find?_map_pres (l : List Paper) (pid : String) (f : Paper → Paper)
    (hf : ∀ p, (f p).id = p.id) :
    ((l.map fun p => if p.id == pid then f p else p).find? fun p => p.id == pid)
      = (l.find? fun p => p.id == pid).map f := by
  induction l with
  | nil => rfl
  | cons a t ih =>
    cases ha : (a.id == pid) with
    | true =>
      have hfa : ((f a).id == pid) = true := by rw [hf]; exact ha
      rw [List.map_cons, if_pos ha,
        @List.find?_cons_of_pos _ (fun p => p.id == pid) (f a)
          (t.map fun p => if p.id == pid then f p else p) hfa,
        @List.find?_cons_of_pos _ (fun p => p.id == pid) a t ha,
        Option.map_some']
    | false =>
      have hna : ¬ ((fun p => p.id == pid) a = true) := by
        intro hcontra
        have hc : (a.id == pid) = true := hcontra
        rw [ha] at hc
        exact Bool.false_ne_true hc
      have hcond : ¬ ((a.id == pid) = true) := hna
      rw [List.map_cons, if_neg hcond,
        @List.find?_cons_of_neg _ (fun p => p.id == pid) a
          (t.map fun p => if p.id == pid then f p else p) hna,
        @List.find?_cons_of_neg _ (fun p => p.id == pid) a t hna,
        ih]

theorem findPaper_setPaper (db : Db) (pid : String) (f : Paper → Paper)
    (hf : ∀ p, (f p).id = p.id) :
    findPaper (setPaper db pid f) pid = (findPaper db pid).map f :=
  find?_map_pres db.papers pid f hf

theorem findPaper_setPaper_some (db : Db) (pid : String) (f : Paper → Paper) (P : Paper)
    (hf : ∀ p, (f p).id = p.id) (h : findPaper db pid = some P) :
    findPaper (setPaper db pid f) pid = some (f P) := by
  rw [findPaper_setPaper db pid f hf, h]
  rfl

theorem map_set_twice (l : List Paper) (pid : String) (f : Paper → Paper)
    (hf : ∀ p, (f p).id = p.id) (hff : ∀ p, f (f p) = f p) :
    ((l.map fun p => if p.id == pid then f p else p).map fun p => if p.id == pid then f p else p)
      = l.map fun p => if p.id == pid then f p else p := by
  rw [List.map_map]
  apply List.map_congr_left
  intro a _
  cases ha : (a.id == pid) with
  | true => simp [Function.comp, ha, hf, hff]
  | false => simp [Function.comp, ha]

theorem papers_addTurn (d : Db) (pid : String) (t : GTurn) :
    (addTurnMessages d pid t).papers = d.papers := by
  unfold addTurnMessages
  dsimp only
  split_ifs <;> rfl

theorem papers_foldTurns (l : List GTurn) (pid : String) (d : Db) :
    (l.foldl (fun d t => addTurnMessages d pid t) d).papers = d.papers := by
  induction l generalizing d with
  | nil => rfl
  | cons t rest ih => rw [List.foldl_cons, ih, papers_addTurn]

theorem notes_addTurn (d : Db) (pid : String) (t : GTurn) :
    (addTurnMessages d pid t).notes = d.notes := by
  unfold addTurnMessages
  dsimp only
  split_ifs <;> rfl

theorem notes_foldTurns (l : List GTurn) (pid : String) (d : Db) :
    (l.foldl (fun d t => addTurnMessages d pid t) d).notes = d.notes := by
  induction l generalizing d with
  | nil => rfl
  | cons t rest ih => rw [List.foldl_cons, ih, notes_addTurn]

theorem findPaper_foldTurns (l : List GTurn) (pid : String) (d : Db) :
    findPaper (l.foldl (fun d t => addTurnMessages d pid t) d) pid = findPaper d pid := by
  unfold findPaper
  rw [papers_foldTurns]

theorem processRest_notes (db2 : Db) (paper : Paper) (pid : String) (env : ProcEnv) :
    (processRest db2 paper pid env).1.notes = db2.notes := by
  unfold processRest
  dsimp only
  repeat' split
  all_goals first
    | rfl
    | exact notes_foldTurns _ _ _

theorem fail_find_status (X : Db) (pid r : String) (Q : Paper)
    (hX : findPaper X pid = some Q) :
    ∃ p', findPaper (failPaper X pid r) pid = some p'
      ∧ (p'.status = PStatus.done ∨ p'.status = PStatus.failed) :=
  ⟨{ Q with status := PStatus.failed, failure_reason := some r },
    findPaper_setPaper_some X pid
      (fun p => { p with status := PStatus.failed, failure_reason := some r }) Q
      (fun p => rfl) hX,
    Or.inr rfl⟩

theorem processRest_status (db2 : Db) (paper : Paper) (pid : String) (env : ProcEnv)
    (P : Paper) (hfind : findPaper db2 pid = some P) :
    ∃ p', findPaper (processRest db2 paper pid env).1 pid = some p'
      ∧ (p'.status = PStatus.done ∨ p'.status = PStatus.failed) := by
  unfold processRest
  dsimp only
  split
  · exact fail_find_status db2 pid _ P hfind
  · split
    · exact fail_find_status _ pid _ _
        (findPaper_setPaper_some db2 pid _ P (fun p => rfl) hfind)
    · split
      · exact fail_find_status _ pid _ _
          (findPaper_setPaper_some db2 pid _ P (fun p => rfl) hfind)
      · split
        · exact fail_find_status _ pid _ _
            (findPaper_setPaper_some _ pid _ _ (fun p => rfl)
              (findPaper_setPaper_some db2 pid _ P (fun p => rfl) hfind))
        · split
          · exact fail_find_status _ pid _ _
              (findPaper_setPaper_some _ pid _ _ (fun p => rfl)
                (findPaper_setPaper_some db2 pid _ P (fun p => rfl) hfind))
          · split
            · exact fail_find_status _ pid _ _
                (findPaper_setPaper_some _ pid _ _ (fun p => rfl)
                  (findPaper_setPaper_some db2 pid _ P (fun p => rfl) hfind))
            · refine ⟨_, findPaper_setPaper_some _ pid
                  (fun p => { p with status := PStatus.done }) _ (fun p => rfl)
                  ((findPaper_foldTurns _ pid _).trans
                    (findPaper_setPaper_some _ pid _ _ (fun p => rfl)
                      (findPaper_setPaper_some db2 pid _ P (fun p => rfl) hfind))), ?_⟩
              exact Or.inl rfl

theorem process_paper_not_queued (db : Db) (pid : String) (env : ProcEnv) (paper : Paper)
    (hfind : findPaper db pid = some paper) (hst : paper.status ≠ PStatus.queued) :
    process_paper db pid env = (db, []) := by
  unfold process_paper
  rw [hfind]
  dsimp only
  rw [if_neg hst]

theorem process_paper_queued_head (db : Db) (pid : String) (env : ProcEnv) (paper : Paper)
    (hfind : findPaper db pid = some paper) (hst : paper.status = PStatus.queued) :
    (process_paper db pid env).2.head?
      = some (setPaper db pid fun p => { p with status := PStatus.processing }) := by
  unfold process_paper
  rw [hfind]
  dsimp only
  rw [if_pos hst]
  rfl

theorem process_paper_queued_terminal (db : Db) (pid : String) (env : ProcEnv) (paper : Paper)
    (hfind : findPaper db pid = some paper) (hst : paper.status = PStatus.queued) :
    ∃ p', findPaper (process_paper db pid env).1 pid = some p'
      ∧ (p'.status = PStatus.done ∨ p'.status = PStatus.failed) := by
  unfold process_paper
  rw [hfind]
  dsimp only
  rw [if_pos hst]
  dsimp only
  exact processRest_status _ paper pid env _
    (findPaper_setPaper_some db pid _ paper (fun p => rfl) hfind)

theorem clear_set_clear (db : Db) (pid : String) (f : Paper → Paper) :
    clearPaperData (setPaper (clearPaperData db pid) pid f) pid
      = clearPaperData (setPaper db pid f) pid := by
  unfold clearPaperData setPaper
  simp [List.filter_filter]

theorem process_paper_clears (db : Db) (pid : String) (env : ProcEnv) (paper : Paper)
    (hfind : findPaper db pid = some paper) (hst : paper.status = PStatus.queued) :
    (process_paper db pid env).1 = (process_paper (clearPaperData db pid) pid env).1 := by
  have hfind2 : findPaper (clearPaperData db pid) pid = some paper := hfind
  unfold process_paper
  rw [hfind, hfind2]
  dsimp only
  rw [if_pos hst, if_pos hst]
  dsimp only
  rw [clear_set_clear]

theorem filter_ne_then_eq (l : List Note) (pid : String) :
    ((l.filter fun n => n.paper_id != pid).filter fun n => n.paper_id == pid) = [] := by
  rw [List.filter_filter]
  rw [List.filter_eq_nil]
  intro a _
  cases h : (a.paper_id == pid) <;> simp [bne, h]

theorem process_paper_notes (db : Db) (pid : String) (env : ProcEnv) (paper : Paper)
    (hfind : findPaper db pid = some paper) (hst : paper.status = PStatus.queued) :
    ((process_paper db pid env).1.notes.filter fun n => n.paper_id == pid) = [] := by
  unfold process_paper
  rw [hfind]
  dsimp only
  rw [if_pos hst]
  dsimp only
  rw [processRest_notes]
  exact filter_ne_then_eq db.notes pid

theorem retry_find (db : Db) (pid : String) :
    findPaper (retry_paper db pid) pid
      = (findPaper db pid).map fun p =>
          { p with status := PStatus.queued, failure_reason := none } := by
  unfold retry_paper
  cases h : findPaper db pid with
  | none => rw [h]; rfl
  | some p =>
    dsimp only
    rw [findPaper_setPaper db pid
      (fun q => { q with status := PStatus.queued, failure_reason := none })
      (fun q => rfl), h]

/-- C9: processing a paper whose status is not queued is a no-op that leaves
the database untouched and commits nothing, and on a queued paper the first
committed mutation is exactly the status change to processing. -/
theorem C9_process_guard :
    (∀ (db : Db) (pid : String) (env : ProcEnv) (paper : Paper),
      findPaper db pid = some paper → paper.status ≠ PStatus.queued →
      process_paper db pid env = (db, [])) ∧
    (∀ (db : Db) (pid : String) (env : ProcEnv) (paper : Paper),
      findPaper db pid = some paper → paper.status = PStatus.queued →
      (process_paper db pid env).2.head?
        = some (setPaper db pid fun p => { p with status := PStatus.processing })) :=
  ⟨process_paper_not_queued, process_paper_queued_head⟩

/-- C9 witness: the no-op on a processing paper and the first commit on a
queued paper, at concrete databases. -/
theorem C9_witness :
    procPaperEx.status ≠ PStatus.queued ∧
    process_paper procDbEx "p1" wProcEnv = (procDbEx, []) ∧
    queuedPaperEx.status = PStatus.queued ∧
    (process_paper queuedDbEx "p2" wProcEnv).2.head?
      = some (setPaper queuedDbEx "p2" fun p => { p with status := PStatus.processing }) :=
  ⟨by decide,
    C9_process_guard.1 procDbEx "p1" wProcEnv procPaperEx (by decide) (by decide),
    rfl,
    C9_process_guard.2 queuedDbEx "p2" wProcEnv queuedPaperEx (by decide) rfl⟩

/-- C10: reprocessing a queued paper first deletes all of its previously
persisted chat messages, interpretations and notes: the final database is
the same as if those records had never existed, and no note of the paper
survives the run. -/
theorem C10_reprocess_loses_history :
    ∀ (db : Db) (pid : String) (env : ProcEnv) (paper : Paper),
      findPaper db pid = some paper → paper.status = PStatus.queued →
      (process_paper db pid env).1 = (process_paper (clearPaperData db pid) pid env).1
      ∧ ((process_paper db pid env).1.notes.filter fun n => n.paper_id == pid) = [] :=
  fun db pid env paper hfind hst =>
    ⟨process_paper_clears db pid env paper hfind hst,
     process_paper_notes db pid env paper hfind hst⟩

/-- C10 witness: a queued paper with stale history and notes, processed in a
concrete environment. -/
theorem C10_witness :
    queuedPaperEx.status = PStatus.queued ∧
    (process_paper histDbEx "p2" wProcEnv).1
      = (process_paper (clearPaperData histDbEx "p2") "p2" wProcEnv).1 ∧
    ((process_paper histDbEx "p2" wProcEnv).1.notes.filter fun n => n.paper_id == "p2") = [] := by
  have h := C10_reprocess_loses_history histDbEx "p2" wProcEnv queuedPaperEx (by decide) rfl
  exact ⟨rfl, h.1, h.2⟩

/-- C5 counterexample: retry has no status guard, so it also resets a paper
in the processing status back to queued, contradicting the claim that only
failed or done papers can be reset. -/
theorem C5_counterexample :
    procPaperEx.status = PStatus.processing ∧
    (findPaper (retry_paper procDbEx "p1") "p1").map Paper.status
      = some PStatus.queued ∧
    (findPaper (retry_paper procDbEx "p1") "p1").bind Paper.failure_reason = none := by
  decide

/-- C5 amended: process_paper moves a queued paper only forward (processing,
then done or failed) and leaves a non-queued paper untouched, so the only
operation moving a paper back to queued is retry; but retry performs the
reset for a paper in ANY current status (including processing), not only for
failed or done papers, always clearing the failure reason. -/
theorem C5_status_transitions :
    (∀ (db : Db) (pid : String),
      findPaper (retry_paper db pid) pid
        = (findPaper db pid).map fun p =>
            { p with status := PStatus.queued, failure_reason := none }) ∧
    (∀ (db : Db) (pid : String) (env : ProcEnv) (paper : Paper),
      findPaper db pid = some paper → paper.status = PStatus.queued →
      ∃ p', findPaper (process_paper db pid env).1 pid = some p'
        ∧ (p'.status = PStatus.done ∨ p'.status = PStatus.failed)) ∧
    (∀ (db : Db) (pid : String) (env : ProcEnv) (paper : Paper),
      findPaper db pid = some paper → paper.status ≠ PStatus.queued →
      process_paper db pid env = (db, [])) :=
  ⟨retry_find, process_paper_queued_terminal, process_paper_not_queued⟩

/-- C5 witness: the amended transition facts at concrete databases. -/
theorem C5_witness :
    (findPaper (retry_paper procDbEx "p1") "p1"
      = (findPaper procDbEx "p1").map fun p =>
          { p with status := PStatus.queued, failure_reason := none }) ∧
    queuedPaperEx.status = PStatus.queued ∧
    (∃ p', findPaper (process_paper queuedDbEx "p2" wProcEnv).1 "p2" = some p'
      ∧ (p'.status = PStatus.done ∨ p'.status = PStatus.failed)) :=
  ⟨C5_status_transitions.1 procDbEx "p1", rfl,
    C5_status_transitions.2.1 queuedDbEx "p2" wProcEnv queuedPaperEx (by decide) rfl⟩

/-- C6: retry on a done paper resets it to queued with the failure reason
cleared, and retry is idempotent: applying it twice in succession yields the
same database as applying it once. -/
theorem C6_retry_idempotent :
    (∀ (db : Db) (pid : String) (paper : Paper),
      findPaper db pid = some paper → paper.status = PStatus.done →
      ∃ p', findPaper (retry_paper db pid) pid = some p'
        ∧ p'.status = PStatus.queued ∧ p'.failure_reason = none) ∧
    (∀ (db : Db) (pid : String),
      retry_paper (retry_paper db pid) pid = retry_paper db pid) := by
  constructor
  · intro db pid paper hfind hst
    rw [retry_find, hfind]
    exact ⟨_, rfl, rfl, rfl⟩
  · intro db pid
    cases h : findPaper db pid with
    | none =>
      have h1 : retry_paper db pid = db := by unfold retry_paper; rw [h]
      rw [h1, h1]
    | some p =>
      have h1 : retry_paper db pid
          = setPaper db pid fun q =>
              { q with status := PStatus.queued, failure_reason := none } := by
        unfold retry_paper; rw [h]
      have h2 := findPaper_setPaper_some db pid
        (fun q => { q with status := PStatus.queued, failure_reason := none }) p
        (fun q => rfl) h
      rw [h1]
      unfold retry_paper
      rw [h2]
      dsimp only
      unfold setPaper
      dsimp only
      rw [map_set_twice db.papers pid
        (fun q => { q with status := PStatus.queued, failure_reason := none })
        (fun q => rfl) (fun q => rfl)]

/-- C6 witness: retry on a concrete done paper, and idempotence at the same
database. -/
theorem C6_witness :
    donePaperEx.status = PStatus.done ∧
    (∃ p', findPaper (retry_paper doneDbEx "p3") "p3" = some p'
      ∧ p'.status = PStatus.queued ∧ p'.failure_reason = none) ∧
    retry_paper (retry_paper doneDbEx "p3") "p3" = retry_paper doneDbEx "p3" :=
  ⟨rfl,
    C6_retry_idempotent.1 doneDbEx "p3" donePaperEx (by decide) rfl,
    C6_retry_idempotent.2 doneDbEx "p3"⟩

end PaperReader
